import Mathlib

/-!
Verification development for the mocap-to-blender pipeline.

The Python sources are embedded shallowly: floating-point arithmetic is
modelled by exact real arithmetic (`ℝ`), numpy vector operations by
componentwise operations on a `Vec3` record, and the stateful filter /
exporter objects by explicit state passing.  Source files embedded here:
`backend/retargeting.py`, `backend/smoother.py`,
`backend/exporters/bvh_exporter.py`, `backend/skeleton.py` (the static
`BONE_HIERARCHY` table) and `backend/recording.py` (the `Recording` data
model).
-/

namespace Mocap

open scoped Classical

noncomputable section

/-- A 3-vector, modelling a numpy array of three floats. -/
structure Vec3 where
  x : ℝ
  y : ℝ
  z : ℝ

/-- Componentwise vector addition. -/
def vadd (a b : Vec3) : Vec3 := ⟨a.x + b.x, a.y + b.y, a.z + b.z⟩

/-- Componentwise vector subtraction. -/
def vsub (a b : Vec3) : Vec3 := ⟨a.x - b.x, a.y - b.y, a.z - b.z⟩

/-- Scalar multiplication of a vector. -/
def vsmul (s : ℝ) (a : Vec3) : Vec3 := ⟨s * a.x, s * a.y, s * a.z⟩

/-- Division of a vector by a scalar (numpy `v / s`). -/
def vdiv (a : Vec3) (s : ℝ) : Vec3 := ⟨a.x / s, a.y / s, a.z / s⟩

/-- Vector negation (numpy `-v`). -/
def vneg (a : Vec3) : Vec3 := ⟨-a.x, -a.y, -a.z⟩

/-- Dot product (`np.dot`). -/
def dot3 (a b : Vec3) : ℝ := a.x * b.x + a.y * b.y + a.z * b.z

/-- Cross product (`np.cross`). -/
def cross3 (a b : Vec3) : Vec3 :=
  ⟨a.y * b.z - a.z * b.y, a.z * b.x - a.x * b.z, a.x * b.y - a.y * b.x⟩

/-- Euclidean norm (`np.linalg.norm`). -/
noncomputable def norm3 (a : Vec3) : ℝ := Real.sqrt (a.x ^ 2 + a.y ^ 2 + a.z ^ 2)

/-- A quaternion in scalar-first layout `[w, x, y, z]`, as the source stores it. -/
structure Quat where
  w : ℝ
  x : ℝ
  y : ℝ
  z : ℝ

/-- Squared norm of a quaternion; a quaternion is a unit quaternion iff this is 1. -/
def quatNormSq (q : Quat) : ℝ := q.w ^ 2 + q.x ^ 2 + q.y ^ 2 + q.z ^ 2

/-- Action of a quaternion on a vector by the standard formula
`v + 2w(u × v) + 2 u × (u × v)` (valid rotation action for unit quaternions);
this is the semantic meaning of "the rotation of the quaternion" used by the spec. -/
def rotateByQuat (q : Quat) (v : Vec3) : Vec3 :=
  let u : Vec3 := ⟨q.x, q.y, q.z⟩
  vadd v (vadd (vsmul (2 * q.w) (cross3 u v)) (vsmul 2 (cross3 u (cross3 u v))))

/-- A landmark record `{x, y, z, visibility}` as produced by the pose detector. -/
structure Landmark where
  x : ℝ
  y : ℝ
  z : ℝ
  visibility : ℝ

/-- Default landmark used to totalise list indexing.  The Python sources index
`lm_array[i]` unconditionally, which raises `IndexError` when `i` is out of
range; every theorem touching these accesses carries the 33-landmark length
hypothesis under which the access is in range. -/
def dfltLm : Landmark := ⟨0, 0, 0, 0⟩

/-- Indexed access into a landmark list (`lm_array[i]`), as a position vector. -/
def getLm (lms : List Landmark) (i : ℕ) : Vec3 :=
  ⟨(lms.getD i dfltLm).x, (lms.getD i dfltLm).y, (lms.getD i dfltLm).z⟩

/-- The `1e-8` epsilon added to denominators in `retargeting.py`. -/
noncomputable def EPS8 : ℝ := 1 / 100000000

/-- The `1e-6` cross-product magnitude threshold in `vector_to_rotation`. -/
noncomputable def CROSS_EPS : ℝ := 1 / 1000000

/-- `np.clip(d, -1.0, 1.0)`. -/
noncomputable def clip1 (d : ℝ) : ℝ := min 1 (max (-1) d)

/-- `retargeting.vector_to_rotation`: quaternion rotating `vec_from` to `vec_to`.
Division of the zero vector by its zero norm (numpy would produce NaN) is
modelled by real division, where division by zero yields zero. -/
noncomputable def vector_to_rotation (vec_from vec_to : Vec3) : Quat :=
  let vf := vdiv vec_from (norm3 vec_from + EPS8)
  let vt := vdiv vec_to (norm3 vec_to + EPS8)
  let axis := cross3 vf vt
  let axis_length := norm3 axis
  if axis_length < CROSS_EPS then
    if 0 < dot3 vf vt then ⟨1, 0, 0, 0⟩
    else
      let perpendicular : Vec3 := if 9 / 10 < |vf.x| then ⟨0, 1, 0⟩ else ⟨1, 0, 0⟩
      let ax0 := cross3 vf perpendicular
      let ax := vdiv ax0 (norm3 ax0)
      ⟨0, ax.x, ax.y, ax.z⟩
  else
    let ax := vdiv axis axis_length
    let angle := Real.arccos (clip1 (dot3 vf vt))
    let half_angle := angle / 2
    ⟨Real.cos half_angle, ax.x * Real.sin half_angle, ax.y * Real.sin half_angle,
      ax.z * Real.sin half_angle⟩

/-- `retargeting.calculate_bone_rotation` with its default reference
direction `[0, 1, 0]`. -/
noncomputable def calculate_bone_rotation (start_pos end_pos : Vec3) : Quat :=
  vector_to_rotation ⟨0, 1, 0⟩ (vsub end_pos start_pos)

/-- One bone's transformation in the retargeter output: `{position, rotation}`. -/
structure BoneXf where
  position : Vec3
  rotation : Quat

/-- `BoneRetargeter.retarget_to_blender`.  The output dict (insertion-ordered in
Python) is modelled as an association list in insertion order.  The source
guard `if not landmarks or len(landmarks) < 33: return {}` is embedded as the
single equivalent test `length < 33` (an empty list has length `0 < 33`). -/
noncomputable def retarget_to_blender (landmarks : List Landmark) :
    List (String × BoneXf) :=
  if landmarks.length < 33 then []
  else
    let lm := getLm landmarks
    let hips_pos := vdiv (vadd (lm 23) (lm 24)) 2
    let spine_pos := vdiv (vadd (vadd (vadd (lm 11) (lm 12)) (lm 23)) (lm 24)) 4
    let chest_pos := vdiv (vadd (lm 11) (lm 12)) 2
    let neck_pos := chest_pos
    let head_pos := lm 0
    [("Hips", ⟨hips_pos, ⟨1, 0, 0, 0⟩⟩),
     ("Spine", ⟨spine_pos, calculate_bone_rotation hips_pos chest_pos⟩),
     ("Chest", ⟨chest_pos, ⟨1, 0, 0, 0⟩⟩),
     ("Neck", ⟨neck_pos, calculate_bone_rotation neck_pos head_pos⟩),
     ("Head", ⟨head_pos, ⟨1, 0, 0, 0⟩⟩),
     ("LeftShoulder", ⟨lm 11, ⟨1, 0, 0, 0⟩⟩),
     ("LeftUpperArm", ⟨lm 11, calculate_bone_rotation (lm 11) (lm 13)⟩),
     ("LeftForeArm", ⟨lm 13, calculate_bone_rotation (lm 13) (lm 15)⟩),
     ("LeftHand", ⟨lm 15, ⟨1, 0, 0, 0⟩⟩),
     ("RightShoulder", ⟨lm 12, ⟨1, 0, 0, 0⟩⟩),
     ("RightUpperArm", ⟨lm 12, calculate_bone_rotation (lm 12) (lm 14)⟩),
     ("RightForeArm", ⟨lm 14, calculate_bone_rotation (lm 14) (lm 16)⟩),
     ("RightHand", ⟨lm 16, ⟨1, 0, 0, 0⟩⟩),
     ("LeftUpLeg", ⟨lm 23, calculate_bone_rotation (lm 23) (lm 25)⟩),
     ("LeftLeg", ⟨lm 25, calculate_bone_rotation (lm 25) (lm 27)⟩),
     ("LeftFoot", ⟨lm 27, ⟨1, 0, 0, 0⟩⟩),
     ("RightUpLeg", ⟨lm 24, calculate_bone_rotation (lm 24) (lm 26)⟩),
     ("RightLeg", ⟨lm 26, calculate_bone_rotation (lm 26) (lm 28)⟩),
     ("RightFoot", ⟨lm 28, ⟨1, 0, 0, 0⟩⟩)]

/-! Smoothing filters (`backend/smoother.py`).  Each Python filter object is
modelled by explicit state passing: `smooth` takes the private state and
returns the smoothed landmarks together with the updated state.  The `None`
initial state is `Option.none`. -/

/-- `ExponentialMovingAverage.smooth`.  Python's `zip(landmarks, self.previous)`
truncates to the shorter list; the smoothed landmark copies
`current.get('visibility', 1.0)`, modelled by the always-present
`visibility` field. -/
def ema_smooth (alpha : ℝ) (previous : Option (List Landmark))
    (landmarks : List Landmark) : List Landmark × Option (List Landmark) :=
  match previous with
  | none => (landmarks, some landmarks)
  | some prev =>
      let smoothed := List.zipWith
        (fun current pr =>
          (⟨alpha * current.x + (1 - alpha) * pr.x,
            alpha * current.y + (1 - alpha) * pr.y,
            alpha * current.z + (1 - alpha) * pr.z,
            current.visibility⟩ : Landmark))
        landmarks prev
      (smoothed, some smoothed)

/-- 3×3 real matrices, modelling the numpy arrays held by `KalmanFilter`. -/
abbrev Mat3 := Matrix (Fin 3) (Fin 3) ℝ

/-- Private state of `KalmanFilter`: per-landmark 3-vector states and 3×3
covariances. -/
structure KalmanState where
  states : List Vec3
  covariances : List Mat3

/-- The per-landmark body of the update loop in `KalmanFilter.smooth`.
`np.linalg.inv` is modelled by Mathlib's matrix inverse (which returns the
true inverse whenever the determinant is nonzero; numpy instead raises on a
singular matrix, a case the loop never produces since the innovation
covariance stays positive definite). -/
def kalman_update (process_noise measurement_noise : ℝ) (st : Vec3) (cov : Mat3)
    (lm : Landmark) : Landmark × Vec3 × Mat3 :=
  let predicted_state := st
  let predicted_cov := cov + process_noise • (1 : Mat3)
  let measurement : Vec3 := ⟨lm.x, lm.y, lm.z⟩
  let innovation := vsub measurement predicted_state
  let innovation_cov := predicted_cov + measurement_noise • (1 : Mat3)
  let kalman_gain := predicted_cov * innovation_cov⁻¹
  let gi := kalman_gain.mulVec ![innovation.x, innovation.y, innovation.z]
  let updated_state := vadd predicted_state ⟨gi 0, gi 1, gi 2⟩
  let updated_cov := ((1 : Mat3) - kalman_gain) * predicted_cov
  (⟨updated_state.x, updated_state.y, updated_state.z, lm.visibility⟩,
   updated_state, updated_cov)

/-- `KalmanFilter.smooth`.  On the first frame (`states is None`) the input is
returned unchanged and the state is initialised with the landmark positions
and identity covariances.  On later frames Python indexes `self.states[i]`
for each incoming landmark (an `IndexError` if the landmark list grew);
the model pairs states with landmarks positionally and keeps untouched
trailing state entries, as the source's in-place list writes do. -/
def kalman_smooth (process_noise measurement_noise : ℝ)
    (st : Option KalmanState) (landmarks : List Landmark) :
    List Landmark × Option KalmanState :=
  match st with
  | none =>
      (landmarks,
       some ⟨landmarks.map (fun lm => ⟨lm.x, lm.y, lm.z⟩),
             landmarks.map (fun _ => (1 : Mat3))⟩)
  | some s =>
      let upd := List.zipWith
        (fun lm (p : Vec3 × Mat3) => kalman_update process_noise measurement_noise p.1 p.2 lm)
        landmarks (s.states.zip s.covariances)
      (upd.map (fun u => u.1),
       some ⟨upd.map (fun u => u.2.1) ++ s.states.drop landmarks.length,
             upd.map (fun u => u.2.2) ++ s.covariances.drop landmarks.length⟩)

/-- Private state of `OneEuroFilter`:  previous values, previous derivative
estimates (dicts with `x`/`y`/`z` keys, modelled as `Vec3`), previous time. -/
structure OneEuroState where
  previous_values : List Landmark
  previous_derivatives : List Vec3
  previous_time : ℝ

/-- `OneEuroFilter._smoothing_factor`. -/
def smoothing_factor (t_e cutoff : ℝ) : ℝ :=
  let r := 2 * Real.pi * cutoff * t_e
  r / (r + 1)

/-- `OneEuroFilter._exponential_smoothing`. -/
def exponential_smoothing (alpha x prev_x : ℝ) : ℝ := alpha * x + (1 - alpha) * prev_x

/-- The per-coordinate body of the loop in `OneEuroFilter.smooth`; returns the
smoothed value and the updated derivative estimate. -/
def one_euro_channel (min_cutoff beta d_cutoff t_e cur prev prev_deriv : ℝ) : ℝ × ℝ :=
  let deriv := (cur - prev) / t_e
  let alpha_d := smoothing_factor t_e d_cutoff
  let deriv_hat := exponential_smoothing alpha_d deriv prev_deriv
  let cutoff := min_cutoff + beta * |deriv_hat|
  let alpha := smoothing_factor t_e cutoff
  (exponential_smoothing alpha cur prev, deriv_hat)

/-- `OneEuroFilter.smooth`.  On the first frame the input passes through
unchanged, derivative estimates are zeroed and the timestamp is recorded.
Python indexes `self.previous_values[i]` (an `IndexError` on a grown
landmark list); the positional pairing below truncates instead. -/
def one_euro_smooth (min_cutoff beta d_cutoff : ℝ) (st : Option OneEuroState)
    (landmarks : List Landmark) (timestamp : ℝ) :
    List Landmark × Option OneEuroState :=
  match st with
  | none =>
      (landmarks, some ⟨landmarks, landmarks.map (fun _ => ⟨0, 0, 0⟩), timestamp⟩)
  | some s =>
      let t_e0 := timestamp - s.previous_time
      let t_e := if t_e0 ≤ 0 then 16 / 1000 else t_e0
      let upd := List.zipWith
        (fun lm (p : Landmark × Vec3) =>
          let cx := one_euro_channel min_cutoff beta d_cutoff t_e lm.x p.1.x p.2.x
          let cy := one_euro_channel min_cutoff beta d_cutoff t_e lm.y p.1.y p.2.y
          let cz := one_euro_channel min_cutoff beta d_cutoff t_e lm.z p.1.z p.2.z
          ((⟨cx.1, cy.1, cz.1, lm.visibility⟩ : Landmark), (⟨cx.2, cy.2, cz.2⟩ : Vec3)))
        landmarks (s.previous_values.zip s.previous_derivatives)
      (upd.map (fun u => u.1),
       some ⟨upd.map (fun u => u.1),
             upd.map (fun u => u.2) ++ s.previous_derivatives.drop landmarks.length,
             timestamp⟩)

/-! Recording data model (`backend/recording.py`).  Only the fields the
exporter reads are carried (`session_id`/ISO `timestamp` strings and the
pydantic bookkeeping are plumbing the exporter never touches). -/

/-- `RecordingFrame`. -/
structure RecordingFrame where
  frame_id : ℕ
  timestamp : ℝ
  landmarks : List Landmark
  world_landmarks : Option (List Landmark)

/-- `RecordingMetadata` (the fields `BVHExporter` reads, plus `duration`). -/
structure RecordingMetadata where
  fps : ℝ
  duration : ℝ
  frame_count : ℕ

/-- `Recording`. -/
structure Recording where
  metadata : RecordingMetadata
  frames : List RecordingFrame

/-- Truthiness-based fallback used both by `_calculate_bone_offsets` and by
`_generate_motion`: use `world_landmarks` unless it is `None` or empty
(both falsy in Python), else the screen-space `landmarks`. -/
def used_landmarks (f : RecordingFrame) : List Landmark :=
  match f.world_landmarks with
  | none => f.landmarks
  | some ws => if ws.isEmpty then f.landmarks else ws

/-! Static skeleton tables (`backend/skeleton.py`, `BONE_HIERARCHY`) and the
exporter (`backend/exporters/bvh_exporter.py`). -/

/-- `BONE_HIERARCHY[bone]['children']`. -/
def boneChildren : String → List String
  | "Hips" => ["Spine", "LeftUpLeg", "RightUpLeg"]
  | "Spine" => ["Chest"]
  | "Chest" => ["Neck", "LeftShoulder", "RightShoulder"]
  | "Neck" => ["Head"]
  | "Head" => []
  | "LeftShoulder" => ["LeftUpperArm"]
  | "LeftUpperArm" => ["LeftForeArm"]
  | "LeftForeArm" => ["LeftHand"]
  | "LeftHand" => []
  | "RightShoulder" => ["RightUpperArm"]
  | "RightUpperArm" => ["RightForeArm"]
  | "RightForeArm" => ["RightHand"]
  | "RightHand" => []
  | "LeftUpLeg" => ["LeftLeg"]
  | "LeftLeg" => ["LeftFoot"]
  | "LeftFoot" => []
  | "RightUpLeg" => ["RightLeg"]
  | "RightLeg" => ["RightFoot"]
  | "RightFoot" => []
  | _ => []

/-- `BONE_HIERARCHY[bone]['offset']`, the static default offset. -/
def defaultOffset : String → Vec3
  | "Spine" => ⟨0, 1 / 10, 0⟩
  | "Chest" => ⟨0, 15 / 100, 0⟩
  | "Neck" => ⟨0, 1 / 10, 0⟩
  | "Head" => ⟨0, 1 / 10, 0⟩
  | "LeftShoulder" => ⟨-(5 / 100), 5 / 100, 0⟩
  | "LeftUpperArm" => ⟨-(25 / 100), 0, 0⟩
  | "LeftForeArm" => ⟨-(25 / 100), 0, 0⟩
  | "LeftHand" => ⟨-(1 / 10), 0, 0⟩
  | "RightShoulder" => ⟨5 / 100, 5 / 100, 0⟩
  | "RightUpperArm" => ⟨25 / 100, 0, 0⟩
  | "RightForeArm" => ⟨25 / 100, 0, 0⟩
  | "RightHand" => ⟨1 / 10, 0, 0⟩
  | "LeftUpLeg" => ⟨-(1 / 10), -(5 / 100), 0⟩
  | "LeftLeg" => ⟨0, -(4 / 10), 0⟩
  | "LeftFoot" => ⟨0, -(4 / 10), 0⟩
  | "RightUpLeg" => ⟨1 / 10, -(5 / 100), 0⟩
  | "RightLeg" => ⟨0, -(4 / 10), 0⟩
  | "RightFoot" => ⟨0, -(4 / 10), 0⟩
  | _ => ⟨0, 0, 0⟩

/-- `BVHExporter._get_bone_order`. -/
def bone_order : List String :=
  ["Hips", "Spine", "Chest", "Neck", "Head",
   "LeftShoulder", "LeftUpperArm", "LeftForeArm", "LeftHand",
   "RightShoulder", "RightUpperArm", "RightForeArm", "RightHand",
   "LeftUpLeg", "LeftLeg", "LeftFoot",
   "RightUpLeg", "RightLeg", "RightFoot"]

/-- `SCALE_FACTOR = 100.0`. -/
def SCALE_FACTOR : ℝ := 100

/-- `BVHExporter._calculate_bone_offsets`, body of the non-empty-frames path,
as a dict (association list, insertion-ordered) computed from the landmark
list chosen for the first frame. -/
def bone_offsets_list (lms : List Landmark) : List (String × Vec3) :=
  let lm := getLm lms
  let hips_pos := vdiv (vadd (lm 23) (lm 24)) 2
  let shoulders_pos := vdiv (vadd (lm 11) (lm 12)) 2
  let spine_offset := vsmul (1 / 2) (vsub shoulders_pos hips_pos)
  let neck_offset := vsmul (1 / 2) (vsub (lm 0) shoulders_pos)
  let head_offset := vsmul (1 / 2) (vsub (lm 0) shoulders_pos)
  [("Hips", ⟨0, 0, 0⟩),
   ("Spine", vsmul SCALE_FACTOR spine_offset),
   ("Chest", vsmul SCALE_FACTOR spine_offset),
   ("Neck", vsmul SCALE_FACTOR neck_offset),
   ("Head", vsmul SCALE_FACTOR head_offset),
   ("LeftShoulder", vsmul SCALE_FACTOR (vsub (lm 11) shoulders_pos)),
   ("LeftUpperArm", vsmul SCALE_FACTOR (vsub (lm 13) (lm 11))),
   ("LeftForeArm", vsmul SCALE_FACTOR (vsub (lm 15) (lm 13))),
   ("LeftHand", vsmul SCALE_FACTOR (vsmul (1 / 2) (vsub (lm 19) (lm 15)))),
   ("RightShoulder", vsmul SCALE_FACTOR (vsub (lm 12) shoulders_pos)),
   ("RightUpperArm", vsmul SCALE_FACTOR (vsub (lm 14) (lm 12))),
   ("RightForeArm", vsmul SCALE_FACTOR (vsub (lm 16) (lm 14))),
   ("RightHand", vsmul SCALE_FACTOR (vsmul (1 / 2) (vsub (lm 20) (lm 16)))),
   ("LeftUpLeg", vsmul SCALE_FACTOR (vsub (lm 23) hips_pos)),
   ("LeftLeg", vsmul SCALE_FACTOR (vsub (lm 25) (lm 23))),
   ("LeftFoot", vsmul SCALE_FACTOR (vsub (lm 27) (lm 25))),
   ("RightUpLeg", vsmul SCALE_FACTOR (vsub (lm 24) hips_pos)),
   ("RightLeg", vsmul SCALE_FACTOR (vsub (lm 26) (lm 24))),
   ("RightFoot", vsmul SCALE_FACTOR (vsub (lm 28) (lm 26)))]

/-- `BVHExporter._calculate_bone_offsets` as a whole: with no frames, every
bone of `BONE_HIERARCHY` gets its static default; otherwise the offsets are
computed from the first frame (world landmarks, falling back to screen
landmarks when world data is absent or empty). -/
def calculate_bone_offsets (r : Recording) : String → Option Vec3 :=
  match r.frames with
  | [] => fun b => (bone_order.map (fun n => (n, defaultOffset n))).lookup b
  | f :: _ => fun b => (bone_offsets_list (used_landmarks f)).lookup b

/-! Numeric text formatting.  Python's fixed-point formatting `f'{v:.df}'` is
modelled by rounding `v * 10^d` to the nearest integer and rendering sign,
integer digits and `d` zero-padded fractional digits.  (CPython rounds exact
halves to even; `round` here rounds them up.  No value formatted in any
theorem below is an exact half, so the models agree on everything proved.) -/

/-- Render a signed integer `n` as a fixed-point decimal with `d` fractional
digits (`n` counts units of `10^(-d)`). -/
def fmtInt (d : ℕ) (n : ℤ) : String :=
  (if n < 0 then "-" else "") ++ toString (n.natAbs / 10 ^ d) ++ "." ++
    (String.mk (List.replicate (d - (toString (n.natAbs % 10 ^ d)).length) '0') ++
      toString (n.natAbs % 10 ^ d))

/-- Python `f'{x:.df}'`. -/
def fmtFixed (d : ℕ) (x : ℝ) : String := fmtInt d (round (x * 10 ^ d))

/-- Python `'sep'.join(parts)`. -/
def joinSep (sep : String) : List String → String
  | [] => ""
  | [s] => s
  | s :: t :: rest => s ++ sep ++ joinSep sep (t :: rest)

/-- `'  ' * indent`. -/
def indentStr (n : ℕ) : String := String.join (List.replicate n "  ")

/-- The `OFFSET`-value text `'{v0:.4f} {v1:.4f} {v2:.4f}'`. -/
def fmtVec4 (v : Vec3) : String :=
  fmtFixed 4 v.x ++ " " ++ fmtFixed 4 v.y ++ " " ++ fmtFixed 4 v.z

/-- `BVHExporter._add_bone_hierarchy`, returning the appended lines.  The
Python recursion is structural over the static `BONE_HIERARCHY` tree; the
spare `fuel` argument (called with 10, exceeding the tree's depth of 6)
makes the recursion well-founded in Lean without changing any reachable
behaviour. -/
def add_bone_hierarchy (offsets : String → Option Vec3) :
    ℕ → String → ℕ → List String
  | 0, _, _ => []
  | fuel + 1, bone_name, indent =>
      (boneChildren bone_name).flatMap fun child_name =>
        let offset := (offsets child_name).getD (defaultOffset child_name)
        let ind := indentStr indent
        [ind ++ "JOINT " ++ child_name,
         ind ++ "\x7b",
         ind ++ "  OFFSET " ++ fmtVec4 offset,
         ind ++ "  CHANNELS 3 Zrotation Xrotation Yrotation"]
        ++ add_bone_hierarchy offsets fuel child_name (indent + 1)
        ++ (if (boneChildren child_name).isEmpty then
              let end_offset : Vec3 :=
                if 1 < norm3 offset then
                  ⟨offset.x * (1 / 10), offset.y * (1 / 10), offset.z * (1 / 10)⟩
                else ⟨0, 5, 0⟩
              [ind ++ "  End Site",
               ind ++ "  \x7b",
               ind ++ "    OFFSET " ++ fmtVec4 end_offset,
               ind ++ "  \x7d"]
            else [])
        ++ [ind ++ "\x7d"]

/-- The line list of `BVHExporter._generate_hierarchy`. -/
def hierarchy_lines (offsets : String → Option Vec3) : List String :=
  ["HIERARCHY", "ROOT Hips", "\x7b", "  OFFSET 0.0 0.0 0.0",
   "  CHANNELS 6 Xposition Yposition Zposition Zrotation Xrotation Yrotation"]
  ++ add_bone_hierarchy offsets 10 "Hips" 1
  ++ ["\x7d"]

/-- `BVHExporter._generate_hierarchy`. -/
def generate_hierarchy (offsets : String → Option Vec3) : String :=
  joinSep "\n" (hierarchy_lines offsets)

/-! Quaternion → Euler conversion.  `BoneRetargeter.quaternion_to_euler`
delegates to the external library call
`scipy.spatial.transform.Rotation.from_quat([x,y,z,w]).as_euler('xyz')`,
modelled here by its documented behaviour: normalise the quaternion and
extract extrinsic x-y-z Euler angles by the standard closed formulas. -/

/-- Two-argument arctangent (C `atan2`), as used by the Euler extraction. -/
def atan2 (y x : ℝ) : ℝ :=
  if 0 < x then Real.arctan (y / x)
  else if x < 0 then
    (if 0 ≤ y then Real.arctan (y / x) + Real.pi else Real.arctan (y / x) - Real.pi)
  else if 0 < y then Real.pi / 2
  else if y < 0 then -(Real.pi / 2)
  else 0

/-- `BoneRetargeter.quaternion_to_euler` (scalar-first in, radians out). -/
def quaternion_to_euler (q : Quat) : ℝ × ℝ × ℝ :=
  let nrm := Real.sqrt (quatNormSq q)
  let w := q.w / nrm
  let x := q.x / nrm
  let y := q.y / nrm
  let z := q.z / nrm
  (atan2 (2 * (w * x + y * z)) (1 - 2 * (x ^ 2 + y ^ 2)),
   Real.arcsin (clip1 (2 * (w * y - z * x))),
   atan2 (2 * (w * z + x * y)) (1 - 2 * (y ^ 2 + z ^ 2)))

/-- `np.degrees`. -/
def degrees (x : ℝ) : ℝ := x * 180 / Real.pi

/-- The three motion channels a bone contributes to a data line:
`[degrees(euler[2]), degrees(euler[0]), degrees(euler[1])]` (Z, X, Y). -/
def euler_zxy_degs (q : Quat) : List ℝ :=
  let e := quaternion_to_euler q
  [degrees e.2.2, degrees e.1, degrees e.2.1]

/-- The numeric values of one data line of `BVHExporter._generate_motion`. -/
def frame_values (f : RecordingFrame) : List ℝ :=
  let landmarks := used_landmarks f
  let bones := retarget_to_blender landmarks
  (match bones.lookup "Hips" with
   | some hips =>
       [hips.position.x * SCALE_FACTOR, hips.position.y * SCALE_FACTOR,
        hips.position.z * SCALE_FACTOR] ++ euler_zxy_degs hips.rotation
   | none => [0, 0, 0, 0, 0, 0])
  ++ (bone_order.drop 1).flatMap fun name =>
      match bones.lookup name with
      | some b => euler_zxy_degs b.rotation
      | none => [0, 0, 0]

/-- One formatted data line: `' '.join(f'{val:.6f}' ...)`. -/
def frame_line (f : RecordingFrame) : String :=
  joinSep " " ((frame_values f).map (fmtFixed 6))

/-- The line list of `BVHExporter._generate_motion`. -/
def motion_lines (r : Recording) : List String :=
  ["MOTION",
   "Frames: " ++ toString r.metadata.frame_count,
   "Frame Time: " ++ fmtFixed 6 (1 / r.metadata.fps)]
  ++ r.frames.map frame_line

/-- `BVHExporter._generate_bvh` for a given `bone_offsets` dict. -/
def generate_bvh (offsets : String → Option Vec3) (r : Recording) : String :=
  generate_hierarchy offsets ++ "\n" ++ joinSep "\n" (motion_lines r)

/-- The mutable state of a `BVHExporter` object: its `bone_offsets` dict
(empty at construction). -/
structure BVHExporterState where
  bone_offsets : String → Option Vec3

/-- `BVHExporter.export` without the file write: recompute `bone_offsets`
from the recording, generate the text, return it with the updated state. -/
def export_step (r : Recording) (_st : BVHExporterState) :
    String × BVHExporterState :=
  let offs := calculate_bone_offsets r
  (generate_bvh offs r, ⟨offs⟩)

/-- The full BVH text `BVHExporter.export` writes for a recording. -/
def export_content (r : Recording) : String :=
  generate_bvh (calculate_bone_offsets r) r

/-- The file-system effect of `BVHExporter.export`: it opens `output_path`
for writing (truncating) and writes the generated text directly to it.
`failAfter = some k` models an I/O failure after `k` characters were
written; the pair holds the content left at `output_path` (`none` would mean
no file) and whether the export succeeded. -/
def export_write (r : Recording) (failAfter : Option ℕ) : Option String × Bool :=
  match failAfter with
  | none => (some (export_content r), true)
  | some k => (some (String.mk ((export_content r).data.take k)), false)

/-- The leaf bones of the static hierarchy (no children). -/
def leafBones : List String := bone_order.filter (fun b => (boneChildren b).isEmpty)

/-- The end-site rule in the spec's words: when the (post-scale) offset's
magnitude exceeds 1.0, extend 10% of the offset vector in the same
direction; otherwise the fixed fallback `(0, 5.0, 0)`. -/
def end_site_offset_spec (offset : Vec3) : Vec3 :=
  if 1 < norm3 offset then
    ⟨offset.x * (1 / 10), offset.y * (1 / 10), offset.z * (1 / 10)⟩
  else ⟨0, 5, 0⟩

/-- Indentation depth at which each leaf bone's End Site block is emitted
(the indent of the recursion level that processes that leaf as a child). -/
def leafIndent : String → ℕ
  | "Head" => 4
  | "LeftHand" => 6
  | "RightHand" => 6
  | "LeftFoot" => 3
  | "RightFoot" => 3
  | _ => 0

/-- A concrete first frame for C1: every landmark at the origin except the
left ankle (index 27), left heel (29) and left foot-index (31), which
coincide at `(0, 0, 1)`.  The left knee (25) is at the origin. -/
noncomputable def c1Lms : List Landmark :=
  [dfltLm, dfltLm, dfltLm, dfltLm, dfltLm, dfltLm, dfltLm, dfltLm, dfltLm,
   dfltLm, dfltLm, dfltLm, dfltLm, dfltLm, dfltLm, dfltLm, dfltLm, dfltLm,
   dfltLm, dfltLm, dfltLm, dfltLm, dfltLm, dfltLm, dfltLm, dfltLm, dfltLm,
   ⟨0, 0, 1, 0⟩, dfltLm, ⟨0, 0, 1, 0⟩, dfltLm, ⟨0, 0, 1, 0⟩, dfltLm]

/-- A concrete recording for C8: no frames, 30 fps. -/
noncomputable def c8Rec : Recording := ⟨⟨30, 0, 0⟩, []⟩

/-- The axis computed by the anti-parallel fallback branch of
`vector_to_rotation` (a perpendicular to the normalized reference `vf`,
chosen through the `|vf[0]| > 0.9` test), factored out for reasoning. -/
noncomputable def antiparallel_axis (vf : Vec3) : Vec3 :=
  vdiv (cross3 vf (if 9 / 10 < |vf.x| then ⟨0, 1, 0⟩ else ⟨1, 0, 0⟩))
    (norm3 (cross3 vf (if 9 / 10 < |vf.x| then ⟨0, 1, 0⟩ else ⟨1, 0, 0⟩)))

/-- A frame whose effective landmark list (world landmarks when present and
nonempty, else screen landmarks) is well-formed (at least 33 landmarks) and
places `left_hip` at `(-0.1, 0, 0)` and `right_hip` at `(0.1, 0, 0)`. -/
def HipCentered (f : RecordingFrame) : Prop :=
  33 ≤ (used_landmarks f).length ∧
  ((used_landmarks f).getD 23 dfltLm).x = -(1 / 10) ∧
  ((used_landmarks f).getD 23 dfltLm).y = 0 ∧
  ((used_landmarks f).getD 23 dfltLm).z = 0 ∧
  ((used_landmarks f).getD 24 dfltLm).x = 1 / 10 ∧
  ((used_landmarks f).getD 24 dfltLm).y = 0 ∧
  ((used_landmarks f).getD 24 dfltLm).z = 0

/-- The 33-landmark list for C4's witness: hips at `(∓0.1, 0, 0)`, every
other landmark at the origin. -/
noncomputable def c4Lms : List Landmark :=
  [dfltLm, dfltLm, dfltLm, dfltLm, dfltLm, dfltLm, dfltLm, dfltLm, dfltLm,
   dfltLm, dfltLm, dfltLm, dfltLm, dfltLm, dfltLm, dfltLm, dfltLm, dfltLm,
   dfltLm, dfltLm, dfltLm, dfltLm, dfltLm,
   ⟨-(1 / 10), 0, 0, 0⟩, ⟨1 / 10, 0, 0, 0⟩,
   dfltLm, dfltLm, dfltLm, dfltLm, dfltLm, dfltLm, dfltLm, dfltLm]

/-- A concrete hip-centered frame (screen landmarks only). -/
noncomputable def c4Frame : RecordingFrame := ⟨0, 0, c4Lms, none⟩

/-- The concrete 2-frame 30-fps recording for C4's witness. -/
noncomputable def c4Rec : Recording := ⟨⟨30, 0, 2⟩, [c4Frame, c4Frame]⟩

end

/-! Theorems. -/

/-- Helper: a leaf child's End Site OFFSET line is emitted in the block of
its parent. -/
theorem end_site_line_mem_child (offsets : String → Option Vec3) (fuel : ℕ)
    (bone child : String) (indent : ℕ)
    (hc : child ∈ boneChildren bone) (hleaf : (boneChildren child).isEmpty = true) :
    (indentStr indent ++ "    OFFSET " ++
        fmtVec4 (end_site_offset_spec ((offsets child).getD (defaultOffset child)))) ∈
      add_bone_hierarchy offsets (fuel + 1) bone indent := by
  simp only [add_bone_hierarchy]
  refine List.mem_flatMap.mpr ⟨child, hc, ?_⟩
  simp [hleaf, end_site_offset_spec]

/-- Helper: lines of a child's recursive block appear in the parent's block. -/
theorem mem_add_bone_hierarchy_descend (offsets : String → Option Vec3) (fuel : ℕ)
    (bone child : String) (indent : ℕ) (x : String)
    (hc : child ∈ boneChildren bone)
    (hx : x ∈ add_bone_hierarchy offsets fuel child (indent + 1)) :
    x ∈ add_bone_hierarchy offsets (fuel + 1) bone indent := by
  simp only [add_bone_hierarchy]
  refine List.mem_flatMap.mpr ⟨child, hc, ?_⟩
  simp [List.mem_append, hx]

/-- Helper: lines of the root recursion appear in the hierarchy line list. -/
theorem mem_hierarchy_lines (offsets : String → Option Vec3) (x : String)
    (hx : x ∈ add_bone_hierarchy offsets 10 "Hips" 1) :
    x ∈ hierarchy_lines offsets := by
  simp [hierarchy_lines, List.mem_append, hx]

/-- C7: on the first frame of a session (filter state `none`) the Kalman
filter and the One-Euro filter each return the input landmarks unmodified;
the Kalman filter initialises its per-landmark states to the landmark
positions and every per-landmark covariance to the 3×3 identity, and the
One-Euro filter initialises every derivative estimate to zero and records
the timestamp. -/
theorem filters_first_frame_passthrough
    (process_noise measurement_noise min_cutoff beta d_cutoff t : ℝ)
    (landmarks : List Landmark) :
    kalman_smooth process_noise measurement_noise none landmarks =
      (landmarks,
       some ⟨landmarks.map (fun lm => ⟨lm.x, lm.y, lm.z⟩),
             landmarks.map (fun _ => (1 : Mat3))⟩) ∧
    one_euro_smooth min_cutoff beta d_cutoff none landmarks t =
      (landmarks, some ⟨landmarks, landmarks.map (fun _ => ⟨0, 0, 0⟩), t⟩) :=
  ⟨rfl, rfl⟩

/-- C10: after the first frame, an EMA smooth on landmark lists of different
lengths raises no error (the function is total): `zip` silently truncates, the
result has the length of the shorter list, and that truncated result becomes
the new stored previous state. -/
theorem ema_mismatched_lengths_truncates (alpha : ℝ) (prev landmarks : List Landmark)
    (_hlen : landmarks.length ≠ prev.length) :
    (ema_smooth alpha (some prev) landmarks).1.length =
      min landmarks.length prev.length ∧
    (ema_smooth alpha (some prev) landmarks).2 =
      some (ema_smooth alpha (some prev) landmarks).1 := by
  refine ⟨?_, rfl⟩
  simp [ema_smooth]

/-- Witness for C10 at a concrete 3-landmark frame against a stored
2-landmark frame. -/
theorem ema_mismatched_lengths_truncates_witness :
    (List.replicate 3 dfltLm).length ≠ (List.replicate 2 dfltLm).length ∧
    ((ema_smooth 1 (some (List.replicate 2 dfltLm)) (List.replicate 3 dfltLm)).1.length =
        min (List.replicate 3 dfltLm).length (List.replicate 2 dfltLm).length ∧
      (ema_smooth 1 (some (List.replicate 2 dfltLm)) (List.replicate 3 dfltLm)).2 =
        some (ema_smooth 1 (some (List.replicate 2 dfltLm)) (List.replicate 3 dfltLm)).1) :=
  ⟨by decide, ema_mismatched_lengths_truncates 1 _ _ (by decide)⟩

/-- C3: BVH serialization is deterministic.  The text `export` produces is a
function of the `Recording` alone: it does not depend on the exporter state
left behind by earlier calls (`bone_offsets` is recomputed from scratch), so
serializing the same recording twice — or two equal recordings — produces
byte-identical output. -/
theorem bvh_generation_deterministic (r : Recording) (s1 s2 : BVHExporterState) :
    (export_step r s1).1 = (export_step r s2).1 ∧
    (export_step r (export_step r s1).2).1 = (export_step r s1).1 :=
  ⟨rfl, rfl⟩

/-- C5: on fewer than 33 landmarks (including the empty list) the retargeter
returns the empty mapping without failing (the function is total); on 33 or
more landmarks it returns a mapping whose keys are exactly the 19 named
bones, in order. -/
theorem retarget_landmark_count_contract (landmarks : List Landmark) :
    (landmarks.length < 33 → retarget_to_blender landmarks = []) ∧
    (33 ≤ landmarks.length →
      (retarget_to_blender landmarks).map Prod.fst = bone_order ∧
        bone_order.length = 19) := by
  constructor
  · intro h
    simp [retarget_to_blender, h]
  · intro h
    rw [retarget_to_blender, if_neg (by omega)]
    exact ⟨rfl, rfl⟩

/-- C1 counterexample: in this first frame the heel-equivalent extremity
landmarks (heel and foot-index) coincide with the ankle, so "half the vector
from the ankle to the extremity, scaled by 100" is the zero vector for every
reading of "extremity" — yet the calibrated `LeftFoot` offset is
`(0, 0, 100)`: the code uses the full knee→ankle vector instead. -/
theorem left_foot_offset_not_half_ankle_to_extremity :
    (bone_offsets_list c1Lms).lookup "LeftFoot" = some ⟨0, 0, 100⟩ ∧
    getLm c1Lms 29 = getLm c1Lms 27 ∧
    getLm c1Lms 31 = getLm c1Lms 27 ∧
    (⟨0, 0, 100⟩ : Vec3) ≠
      vsmul SCALE_FACTOR (vsmul (1 / 2) (vsub (getLm c1Lms 29) (getLm c1Lms 27))) := by
  refine ⟨?_, rfl, rfl, ?_⟩
  · show some (vsmul SCALE_FACTOR (vsub (getLm c1Lms 27) (getLm c1Lms 25))) =
      some ⟨0, 0, 100⟩
    simp only [c1Lms, getLm, vsub, vsmul, SCALE_FACTOR, dfltLm]
    norm_num
  · intro h
    have hz := congrArg Vec3.z h
    simp only [c1Lms, getLm, vsub, vsmul, SCALE_FACTOR, dfltLm] at hz
    norm_num at hz

/-- C1 (amended): during rest-offset calibration from the first frame's
landmarks, the hand offsets are as the claim states — half the wrist→index
vector scaled by 100 — but the foot offsets are the *full* knee→ankle
vector scaled by 100, not half of an ankle→extremity vector. -/
theorem hand_and_foot_rest_offsets (lms : List Landmark) (_h : 33 ≤ lms.length) :
    (bone_offsets_list lms).lookup "LeftHand" =
      some (vsmul SCALE_FACTOR (vsmul (1 / 2) (vsub (getLm lms 19) (getLm lms 15)))) ∧
    (bone_offsets_list lms).lookup "RightHand" =
      some (vsmul SCALE_FACTOR (vsmul (1 / 2) (vsub (getLm lms 20) (getLm lms 16)))) ∧
    (bone_offsets_list lms).lookup "LeftFoot" =
      some (vsmul SCALE_FACTOR (vsub (getLm lms 27) (getLm lms 25))) ∧
    (bone_offsets_list lms).lookup "RightFoot" =
      some (vsmul SCALE_FACTOR (vsub (getLm lms 28) (getLm lms 26))) :=
  ⟨rfl, rfl, rfl, rfl⟩

/-- Witness for C1's amended theorem at a concrete 33-landmark first frame. -/
theorem hand_and_foot_rest_offsets_witness :
    33 ≤ c1Lms.length ∧
    (bone_offsets_list c1Lms).lookup "LeftFoot" =
      some (vsmul SCALE_FACTOR (vsub (getLm c1Lms 27) (getLm c1Lms 25))) :=
  ⟨by decide, (hand_and_foot_rest_offsets c1Lms (by decide)).2.2.1⟩

/-- C2: for every calibrated-offset dict and every leaf bone of the emitted
HIERARCHY block, the block contains that leaf's End Site OFFSET line, and
its value follows the spec's rule: 10% of the bone's (post-scale) offset in
the same direction when the offset's magnitude exceeds 1.0, else the fixed
fallback `(0, 5.0, 0)`. -/
theorem end_site_offsets_follow_rule (offsets : String → Option Vec3) (b : String)
    (hb : b ∈ leafBones) :
    (indentStr (leafIndent b) ++ "    OFFSET " ++
        fmtVec4 (end_site_offset_spec ((offsets b).getD (defaultOffset b)))) ∈
      hierarchy_lines offsets := by
  have hlb : leafBones = ["Head", "LeftHand", "RightHand", "LeftFoot", "RightFoot"] := by
    decide
  rw [hlb] at hb
  simp only [List.mem_cons, List.not_mem_nil, or_false] at hb
  rcases hb with rfl | rfl | rfl | rfl | rfl
  · exact mem_hierarchy_lines offsets _
      (mem_add_bone_hierarchy_descend offsets 9 "Hips" "Spine" 1 _ (by decide)
        (mem_add_bone_hierarchy_descend offsets 8 "Spine" "Chest" 2 _ (by decide)
          (mem_add_bone_hierarchy_descend offsets 7 "Chest" "Neck" 3 _ (by decide)
            (end_site_line_mem_child offsets 6 "Neck" "Head" 4 (by decide) (by decide)))))
  · exact mem_hierarchy_lines offsets _
      (mem_add_bone_hierarchy_descend offsets 9 "Hips" "Spine" 1 _ (by decide)
        (mem_add_bone_hierarchy_descend offsets 8 "Spine" "Chest" 2 _ (by decide)
          (mem_add_bone_hierarchy_descend offsets 7 "Chest" "LeftShoulder" 3 _ (by decide)
            (mem_add_bone_hierarchy_descend offsets 6 "LeftShoulder" "LeftUpperArm" 4 _
                (by decide)
              (mem_add_bone_hierarchy_descend offsets 5 "LeftUpperArm" "LeftForeArm" 5 _
                  (by decide)
                (end_site_line_mem_child offsets 4 "LeftForeArm" "LeftHand" 6
                  (by decide) (by decide)))))))
  · exact mem_hierarchy_lines offsets _
      (mem_add_bone_hierarchy_descend offsets 9 "Hips" "Spine" 1 _ (by decide)
        (mem_add_bone_hierarchy_descend offsets 8 "Spine" "Chest" 2 _ (by decide)
          (mem_add_bone_hierarchy_descend offsets 7 "Chest" "RightShoulder" 3 _ (by decide)
            (mem_add_bone_hierarchy_descend offsets 6 "RightShoulder" "RightUpperArm" 4 _
                (by decide)
              (mem_add_bone_hierarchy_descend offsets 5 "RightUpperArm" "RightForeArm" 5 _
                  (by decide)
                (end_site_line_mem_child offsets 4 "RightForeArm" "RightHand" 6
                  (by decide) (by decide)))))))
  · exact mem_hierarchy_lines offsets _
      (mem_add_bone_hierarchy_descend offsets 9 "Hips" "LeftUpLeg" 1 _ (by decide)
        (mem_add_bone_hierarchy_descend offsets 8 "LeftUpLeg" "LeftLeg" 2 _ (by decide)
          (end_site_line_mem_child offsets 7 "LeftLeg" "LeftFoot" 3 (by decide) (by decide))))
  · exact mem_hierarchy_lines offsets _
      (mem_add_bone_hierarchy_descend offsets 9 "Hips" "RightUpLeg" 1 _ (by decide)
        (mem_add_bone_hierarchy_descend offsets 8 "RightUpLeg" "RightLeg" 2 _ (by decide)
          (end_site_line_mem_child offsets 7 "RightLeg" "RightFoot" 3 (by decide) (by decide))))

/-- Witness for C2 at the empty offsets dict and the leaf bone `Head`. -/
theorem end_site_offsets_follow_rule_witness :
    "Head" ∈ leafBones ∧
    (indentStr (leafIndent "Head") ++ "    OFFSET " ++
        fmtVec4 (end_site_offset_spec
          (((fun _ => none : String → Option Vec3) "Head").getD (defaultOffset "Head")))) ∈
      hierarchy_lines (fun _ => none) :=
  ⟨by decide, end_site_offsets_follow_rule (fun _ => none) "Head" (by decide)⟩

/-- Helper: a string's character-list length is its length. -/
theorem string_data_length (s : String) : s.data.length = s.length := rfl

/-- Helper: taking a strict prefix of a string's characters yields a
different string. -/
theorem string_take_ne (s : String) (k : ℕ) (hk : k < s.data.length) :
    String.mk (s.data.take k) ≠ s := by
  intro h
  have h2 : s.data.take k = s.data := congrArg String.data h
  have h3 := congrArg List.length h2
  rw [List.length_take] at h3
  omega

set_option maxRecDepth 8000 in
/-- Helper: every generated BVH text begins with the characters of
`"HIERARCHY\n"`, so it holds at least 10 characters. -/
theorem export_content_length_ge (r : Recording) :
    10 ≤ (export_content r).data.length := by
  have hshape : ∃ t u, export_content r =
      "HIERARCHY" ++ "\n" ++ t ++ "\n" ++ u := ⟨_, _, rfl⟩
  obtain ⟨t, u, ht⟩ := hshape
  rw [ht]
  simp only [String.data_append, List.length_append, List.length_cons,
    List.length_nil]
  omega

set_option maxRecDepth 16000 in
set_option maxHeartbeats 1000000 in
/-- C8 counterexample: exporting this recording with a write failure after one
character leaves a file at the committed output path whose content is neither
empty nor the complete BVH text — a partially-written artifact.  The code
opens the committed path directly and writes into it; there is no
write-to-temporary-then-rename step. -/
theorem export_failure_leaves_partial_artifact_example :
    (export_write c8Rec (some 1)).2 = false ∧
    ∃ s, (export_write c8Rec (some 1)).1 = some s ∧ s ≠ "" ∧
      s ≠ export_content c8Rec := by
  have hlen := export_content_length_ge c8Rec
  refine ⟨rfl, String.mk ((export_content c8Rec).data.take 1), rfl, ?_, ?_⟩
  · intro heq
    have h2 : (export_content c8Rec).data.take 1 = [] := congrArg String.data heq
    have h3 := congrArg List.length h2
    simp only [List.length_take, List.length_nil] at h3
    omega
  · exact string_take_ne (export_content c8Rec) 1 (by omega)

set_option maxRecDepth 16000 in
set_option maxHeartbeats 1000000 in
/-- C8 (amended): export is not atomic.  If the write fails after `k`
characters (with `k` less than the full content length), the export reports
failure and the committed output path is left holding the `k`-character
prefix of the BVH text — a partial artifact differing from the complete
content. -/
theorem export_failure_leaves_written_prefix (r : Recording) (k : ℕ)
    (hk : k < (export_content r).data.length) :
    (export_write r (some k)).2 = false ∧
    ∃ s, (export_write r (some k)).1 = some s ∧ s.data.length = k ∧
      s ≠ export_content r := by
  refine ⟨rfl, String.mk ((export_content r).data.take k), rfl, ?_, ?_⟩
  · show ((export_content r).data.take k).length = k
    simp only [List.length_take]
    omega
  · exact string_take_ne (export_content r) k hk

set_option maxRecDepth 16000 in
set_option maxHeartbeats 1000000 in
/-- Witness for C8's amended theorem: the concrete recording, failure after
one character. -/
theorem export_failure_leaves_written_prefix_witness :
    1 < (export_content c8Rec).data.length ∧
    ((export_write c8Rec (some 1)).2 = false ∧
      ∃ s, (export_write c8Rec (some 1)).1 = some s ∧ s.data.length = 1 ∧
        s ≠ export_content c8Rec) := by
  have hlen : 1 < (export_content c8Rec).data.length := by
    have := export_content_length_ge c8Rec
    omega
  exact ⟨hlen, export_failure_leaves_written_prefix c8Rec 1 hlen⟩

/-! Geometry helpers for the `vector_to_rotation` claims. -/

/-- The squared norm is the dot product with itself. -/
theorem sq_norm3 (a : Vec3) : norm3 a ^ 2 = dot3 a a := by
  have h := Real.sq_sqrt (show (0:ℝ) ≤ a.x ^ 2 + a.y ^ 2 + a.z ^ 2 by positivity)
  simp only [norm3, dot3]
  rw [h]
  ring

/-- Norms are nonnegative. -/
theorem norm3_nonneg (a : Vec3) : 0 ≤ norm3 a := Real.sqrt_nonneg _

/-- A vector with nonzero self-dot has nonzero norm. -/
theorem norm3_ne_zero (a : Vec3) (h : dot3 a a ≠ 0) : norm3 a ≠ 0 := by
  intro h0
  apply h
  rw [← sq_norm3, h0]
  ring

/-- Normalizing a vector of nonzero norm yields a unit vector. -/
theorem dot3_self_normalized (a : Vec3) (ha : norm3 a ≠ 0) :
    dot3 (vdiv a (norm3 a)) (vdiv a (norm3 a)) = 1 := by
  have h2 : norm3 a ^ 2 = dot3 a a := sq_norm3 a
  simp only [dot3, vdiv] at h2 ⊢
  field_simp
  linear_combination -h2

/-- Dot product after dividing the left argument by a scalar. -/
theorem dot3_vdiv_left (a b : Vec3) (n : ℝ) : dot3 (vdiv a n) b = dot3 a b / n := by
  simp only [dot3, vdiv]
  ring

/-- A cross product with a (scaled) vector is perpendicular to that vector. -/
theorem dot3_cross3_vdiv_self (a p : Vec3) (s : ℝ) :
    dot3 (cross3 (vdiv a s) p) a = 0 := by
  simp only [dot3, cross3, vdiv]
  ring

/-- The squared norm of a pure quaternion `[0, u]` is the squared norm of `u`. -/
theorem quatNormSq_axis (u : Vec3) : quatNormSq ⟨0, u.x, u.y, u.z⟩ = dot3 u u := by
  simp only [quatNormSq, dot3]
  ring

/-- Rotating by the pure quaternion `[0, u]` with `u` a unit vector
perpendicular to `v` sends `v` to `-v` (a 180° rotation about `u`). -/
theorem rotate_pi_about_perp_axis (u v : Vec3) (hu : dot3 u u = 1)
    (huv : dot3 u v = 0) :
    rotateByQuat ⟨0, u.x, u.y, u.z⟩ v = vneg v := by
  simp only [dot3] at hu huv
  simp only [rotateByQuat, cross3, vadd, vsmul, vneg, Vec3.mk.injEq]
  refine ⟨?_, ?_, ?_⟩
  · linear_combination (-2 * v.x) * hu + (2 * u.x) * huv
  · linear_combination (-2 * v.y) * hu + (2 * u.y) * huv
  · linear_combination (-2 * v.z) * hu + (2 * u.z) * huv

/-- Negation preserves the norm. -/
theorem norm3_vneg (v : Vec3) : norm3 (vneg v) = norm3 v := by
  simp only [norm3, vneg, neg_sq]

/-- The cross product of (scaled copies of) a vector and its negation vanishes. -/
theorem cross3_vdiv_neg (v : Vec3) (s : ℝ) :
    cross3 (vdiv v s) (vdiv (vneg v) s) = ⟨0, 0, 0⟩ := by
  simp only [cross3, vdiv, vneg, Vec3.mk.injEq]
  refine ⟨?_, ?_, ?_⟩ <;> ring

/-- The zero vector has zero norm. -/
theorem norm3_zero : norm3 ⟨0, 0, 0⟩ = 0 := by
  simp [norm3]

/-- For every nonzero `v`, `vector_to_rotation v (-v)` takes the anti-parallel
fallback branch: the cross product of the normalized inputs vanishes exactly
and their dot product is nonpositive. -/
theorem vtr_neg_form (v : Vec3) (_hv : dot3 v v ≠ 0) :
    vector_to_rotation v (vneg v) =
      ⟨0, (antiparallel_axis (vdiv v (norm3 v + EPS8))).x,
        (antiparallel_axis (vdiv v (norm3 v + EPS8))).y,
        (antiparallel_axis (vdiv v (norm3 v + EPS8))).z⟩ := by
  have hdotnn : (0:ℝ) ≤ dot3 v v := by
    have hh : dot3 v v = v.x ^ 2 + v.y ^ 2 + v.z ^ 2 := by simp only [dot3]; ring
    rw [hh]
    positivity
  have hs : (0:ℝ) < norm3 v + EPS8 := by
    have h1 := norm3_nonneg v
    have h2 : (0:ℝ) < EPS8 := by norm_num [EPS8]
    linarith
  simp only [vector_to_rotation, norm3_vneg]
  rw [cross3_vdiv_neg v (norm3 v + EPS8), norm3_zero,
    if_pos (show (0:ℝ) < CROSS_EPS by norm_num [CROSS_EPS])]
  rw [if_neg]
  · simp only [antiparallel_axis]
  · have hs2 : norm3 v + EPS8 ≠ 0 := ne_of_gt hs
    have hd : dot3 (vdiv v (norm3 v + EPS8)) (vdiv (vneg v) (norm3 v + EPS8)) =
        -(dot3 v v / (norm3 v + EPS8) ^ 2) := by
      simp only [dot3, vdiv, vneg]
      field_simp
      ring
    rw [hd]
    simp only [not_lt]
    have hnn : (0:ℝ) ≤ dot3 v v / (norm3 v + EPS8) ^ 2 :=
      div_nonneg hdotnn (by positivity)
    linarith

/-- C6 (amended): for every nonzero `v` that is not an x-axis-aligned vector
of magnitude at most `9e-8`, `vector_to_rotation(v, -v)` returns a unit
quaternion whose rotation maps `v` exactly to `-v` (a 180° rotation about an
axis perpendicular to `v`); "unit" is stated as squared norm 1.  For
x-axis-aligned `v` of magnitude at most `9e-8` the fallback perpendicular is
parallel to the normalized reference and the result degenerates (see the
counterexample). -/
theorem vector_to_rotation_antiparallel_unit_and_reverses (v : Vec3)
    (hgood : v.y ≠ 0 ∨ v.z ≠ 0 ∨ 9 / 100000000 < |v.x|) :
    quatNormSq (vector_to_rotation v (vneg v)) = 1 ∧
    rotateByQuat (vector_to_rotation v (vneg v)) v = vneg v := by
  have hvv : dot3 v v ≠ 0 := by
    have hh : dot3 v v = v.x ^ 2 + v.y ^ 2 + v.z ^ 2 := by simp only [dot3]; ring
    rw [hh]
    rcases hgood with h | h | h
    · have h2 := pow_two_pos_of_ne_zero h
      nlinarith [sq_nonneg v.x, sq_nonneg v.z]
    · have h2 := pow_two_pos_of_ne_zero h
      nlinarith [sq_nonneg v.x, sq_nonneg v.y]
    · have hx : v.x ≠ 0 := by
        intro h0
        rw [h0] at h
        simp at h
        norm_num at h
      have h2 := pow_two_pos_of_ne_zero hx
      nlinarith [sq_nonneg v.y, sq_nonneg v.z]
  have hspos : (0:ℝ) < norm3 v + EPS8 := by
    have h1 := norm3_nonneg v
    have h2 : (0:ℝ) < EPS8 := by norm_num [EPS8]
    linarith
  have hsne : norm3 v + EPS8 ≠ 0 := ne_of_gt hspos
  rw [vtr_neg_form v hvv]
  simp only [antiparallel_axis]
  set s := norm3 v + EPS8 with hs_def
  set vf := vdiv v s with hvf_def
  set p := (if 9 / 10 < |vf.x| then (⟨0, 1, 0⟩ : Vec3) else ⟨1, 0, 0⟩) with hp_def
  set a0 := cross3 vf p with ha0_def
  have hnum : dot3 a0 v = 0 := by
    rw [ha0_def, hvf_def]
    exact dot3_cross3_vdiv_self v p s
  have hd0 : dot3 a0 a0 ≠ 0 := by
    by_cases hxc : 9 / 10 < |vf.x|
    · have hp2 : p = ⟨0, 1, 0⟩ := by rw [hp_def, if_pos hxc]
      have ha0c : a0 = ⟨-vf.z, 0, vf.x⟩ := by
        rw [ha0_def, hp2]
        simp only [cross3, Vec3.mk.injEq]
        refine ⟨by ring, by ring, by ring⟩
      have hxne : vf.x ≠ 0 := by
        intro h0
        rw [h0] at hxc
        simp at hxc
        norm_num at hxc
      rw [ha0c]
      have h1 : dot3 (⟨-vf.z, 0, vf.x⟩ : Vec3) ⟨-vf.z, 0, vf.x⟩ =
          vf.z ^ 2 + vf.x ^ 2 := by
        simp only [dot3]
        ring
      rw [h1]
      have h2 := pow_two_pos_of_ne_zero hxne
      nlinarith [sq_nonneg vf.z]
    · have hp1 : p = ⟨1, 0, 0⟩ := by rw [hp_def, if_neg hxc]
      have ha0c : a0 = ⟨0, vf.z, -vf.y⟩ := by
        rw [ha0_def, hp1]
        simp only [cross3, Vec3.mk.injEq]
        refine ⟨by ring, by ring, by ring⟩
      have hyz : v.y ≠ 0 ∨ v.z ≠ 0 := by
        by_contra hcon
        push_neg at hcon
        obtain ⟨hy0, hz0⟩ := hcon
        rcases hgood with hy | hz | hx
        · exact hy hy0
        · exact hz hz0
        · apply hxc
          have hnv : norm3 v = |v.x| := by
            simp only [norm3, hy0, hz0]
            rw [show v.x ^ 2 + 0 ^ 2 + 0 ^ 2 = v.x ^ 2 by ring]
            exact Real.sqrt_sq_eq_abs v.x
          rw [hvf_def]
          simp only [vdiv]
          rw [abs_div, abs_of_pos hspos, lt_div_iff₀ hspos, hs_def, hnv]
          have he : EPS8 = 1 / 100000000 := rfl
          rw [he] at *
          linarith
      have hyzf : vf.y ≠ 0 ∨ vf.z ≠ 0 := by
        rcases hyz with hy | hz
        · left
          rw [hvf_def]
          simp only [vdiv]
          exact div_ne_zero hy hsne
        · right
          rw [hvf_def]
          simp only [vdiv]
          exact div_ne_zero hz hsne
      rw [ha0c]
      have h1 : dot3 (⟨0, vf.z, -vf.y⟩ : Vec3) ⟨0, vf.z, -vf.y⟩ =
          vf.y ^ 2 + vf.z ^ 2 := by
        simp only [dot3]
        ring
      rw [h1]
      rcases hyzf with hy | hz
      · have h2 := pow_two_pos_of_ne_zero hy
        nlinarith [sq_nonneg vf.z]
      · have h2 := pow_two_pos_of_ne_zero hz
        nlinarith [sq_nonneg vf.y]
  have hna0 : norm3 a0 ≠ 0 := norm3_ne_zero a0 hd0
  have hu : dot3 (vdiv a0 (norm3 a0)) (vdiv a0 (norm3 a0)) = 1 :=
    dot3_self_normalized a0 hna0
  have hperp : dot3 (vdiv a0 (norm3 a0)) v = 0 := by
    rw [dot3_vdiv_left, hnum]
    exact zero_div _
  constructor
  · rw [quatNormSq_axis]
    exact hu
  · exact rotate_pi_about_perp_axis (vdiv a0 (norm3 a0)) v hu hperp

/-- Witness for C6's amended theorem at the concrete skew-free input
`v = (0, 1, 0)`. -/
theorem vector_to_rotation_antiparallel_witness :
    ((⟨0, 1, 0⟩ : Vec3).y ≠ 0 ∨ (⟨0, 1, 0⟩ : Vec3).z ≠ 0 ∨
      9 / 100000000 < |(⟨0, 1, 0⟩ : Vec3).x|) ∧
    (quatNormSq (vector_to_rotation ⟨0, 1, 0⟩ (vneg ⟨0, 1, 0⟩)) = 1 ∧
      rotateByQuat (vector_to_rotation ⟨0, 1, 0⟩ (vneg ⟨0, 1, 0⟩)) ⟨0, 1, 0⟩ =
        vneg ⟨0, 1, 0⟩) :=
  ⟨Or.inl (by norm_num),
   vector_to_rotation_antiparallel_unit_and_reverses ⟨0, 1, 0⟩ (Or.inl (by norm_num))⟩

/-- C6 counterexample: at the nonzero x-axis-aligned input `v = (9e-8, 0, 0)`
the anti-parallel fallback picks the perpendicular `(1, 0, 0)`, which is
parallel to the normalized reference `(0.9, 0, 0)`; the synthesized axis is
the zero vector divided by its zero norm (NaN in numpy, zero in this exact
model), so the result `(0, 0, 0, 0)` is not a unit quaternion and the claim
fails at this `v`. -/
theorem vector_to_rotation_degenerate_not_unit :
    (⟨9 / 100000000, 0, 0⟩ : Vec3) ≠ ⟨0, 0, 0⟩ ∧
    quatNormSq (vector_to_rotation ⟨9 / 100000000, 0, 0⟩
      (vneg ⟨9 / 100000000, 0, 0⟩)) ≠ 1 := by
  constructor
  · intro h
    have hx := congrArg Vec3.x h
    norm_num at hx
  · have hvv : dot3 (⟨9 / 100000000, 0, 0⟩ : Vec3) ⟨9 / 100000000, 0, 0⟩ ≠ 0 := by
      simp only [dot3]
      norm_num
    rw [vtr_neg_form _ hvv]
    have hn : norm3 ⟨9 / 100000000, 0, 0⟩ = 9 / 100000000 := by
      simp only [norm3]
      rw [show (9 / 100000000 : ℝ) ^ 2 + 0 ^ 2 + 0 ^ 2 = (9 / 100000000 : ℝ) ^ 2 by
        ring]
      rw [Real.sqrt_sq (by norm_num)]
    have hvf : vdiv ⟨9 / 100000000, 0, 0⟩ (norm3 ⟨9 / 100000000, 0, 0⟩ + EPS8) =
        ⟨9 / 10, 0, 0⟩ := by
      rw [hn]
      simp only [vdiv, EPS8, Vec3.mk.injEq]
      norm_num
    rw [hvf]
    have hcond : ¬ (9 / 10 < |(⟨9 / 10, 0, 0⟩ : Vec3).x|) := by
      have ha : |((9 : ℝ) / 10)| = 9 / 10 := abs_of_pos (by norm_num)
      simp only [ha]
      norm_num
    have hax : antiparallel_axis ⟨9 / 10, 0, 0⟩ = ⟨0, 0, 0⟩ := by
      simp only [antiparallel_axis, if_neg hcond]
      have hc : cross3 (⟨9 / 10, 0, 0⟩ : Vec3) ⟨1, 0, 0⟩ = ⟨0, 0, 0⟩ := by
        simp only [cross3, Vec3.mk.injEq]
        norm_num
      rw [hc]
      simp [vdiv, norm3_zero]
    rw [hax]
    simp [quatNormSq]

/-- The axis–angle quaternion `[cos θ, u sin θ]` over a unit axis `u` is a
unit quaternion. -/
theorem quatNormSq_axis_angle (u : Vec3) (θ : ℝ) (hu : dot3 u u = 1) :
    quatNormSq ⟨Real.cos θ, u.x * Real.sin θ, u.y * Real.sin θ, u.z * Real.sin θ⟩
      = 1 := by
  simp only [quatNormSq, dot3] at hu ⊢
  linear_combination (Real.sin θ) ^ 2 * hu + Real.sin_sq_add_cos_sq θ

/-- Every quaternion produced by `calculate_bone_rotation` is a unit
quaternion, whatever the (possibly degenerate) joint positions: the
identity and axis–angle branches are unit by construction, and in the
anti-parallel branch the reference direction `[0,1,0]` makes the fallback
perpendicular `[1,0,0]` safe. -/
theorem quatNormSq_calculate_bone_rotation (a b : Vec3) :
    quatNormSq (calculate_bone_rotation a b) = 1 := by
  have hn1 : norm3 ⟨0, 1, 0⟩ = 1 := by
    simp only [norm3]
    norm_num
  simp only [calculate_bone_rotation, vector_to_rotation, hn1]
  by_cases h1 :
      norm3 (cross3 (vdiv ⟨0, 1, 0⟩ (1 + EPS8))
        (vdiv (vsub b a) (norm3 (vsub b a) + EPS8))) < CROSS_EPS
  · rw [if_pos h1]
    by_cases h2 : 0 < dot3 (vdiv ⟨0, 1, 0⟩ (1 + EPS8))
        (vdiv (vsub b a) (norm3 (vsub b a) + EPS8))
    · rw [if_pos h2]
      simp [quatNormSq]
    · rw [if_neg h2]
      have hvfx : ¬ (9 / 10 < |(vdiv (⟨0, 1, 0⟩ : Vec3) (1 + EPS8)).x|) := by
        simp only [vdiv]
        norm_num
      rw [if_neg hvfx]
      rw [quatNormSq_axis]
      apply dot3_self_normalized
      apply norm3_ne_zero
      have hc : cross3 (vdiv (⟨0, 1, 0⟩ : Vec3) (1 + EPS8)) ⟨1, 0, 0⟩ =
          ⟨0, 0, -(1 / (1 + EPS8))⟩ := by
        simp only [cross3, vdiv, Vec3.mk.injEq]
        norm_num
      rw [hc]
      have hd : dot3 (⟨0, 0, -(1 / (1 + EPS8))⟩ : Vec3) ⟨0, 0, -(1 / (1 + EPS8))⟩ =
          (1 / (1 + EPS8)) ^ 2 := by
        simp only [dot3]
        ring
      rw [hd]
      have hcne : (1 : ℝ) / (1 + EPS8) ≠ 0 := by
        norm_num [EPS8]
      exact ne_of_gt (pow_two_pos_of_ne_zero hcne)
  · rw [if_neg h1]
    apply quatNormSq_axis_angle
    apply dot3_self_normalized
    intro h0
    rw [h0] at h1
    apply h1
    norm_num [CROSS_EPS]

/-- C9: for every input of at least 33 landmarks — including degenerate
geometry such as coincident joints or zero-length bone vectors — every
rotation in the retargeter's output mapping is a scalar-first unit
quaternion (squared norm exactly 1 in this exact-arithmetic model); the
retargeter is total, so no error is raised. -/
theorem retarget_rotations_unit (landmarks : List Landmark)
    (h33 : 33 ≤ landmarks.length) :
    ∀ nb ∈ retarget_to_blender landmarks, quatNormSq nb.2.rotation = 1 := by
  intro nb hnb
  rw [retarget_to_blender, if_neg (by omega)] at hnb
  simp only [List.mem_cons, List.not_mem_nil, or_false] at hnb
  rcases hnb with rfl | rfl | rfl | rfl | rfl | rfl | rfl | rfl | rfl | rfl | rfl |
    rfl | rfl | rfl | rfl | rfl | rfl | rfl | rfl <;>
    first
      | (simp only [quatNormSq]; norm_num; done)
      | exact quatNormSq_calculate_bone_rotation _ _

/-- Witness for C9 at a concrete (fully degenerate: all landmarks coincident
at the origin) 33-landmark input. -/
theorem retarget_rotations_unit_witness :
    33 ≤ (List.replicate 33 dfltLm).length ∧
    ∀ nb ∈ retarget_to_blender (List.replicate 33 dfltLm),
      quatNormSq nb.2.rotation = 1 :=
  ⟨by decide, retarget_rotations_unit (List.replicate 33 dfltLm) (by decide)⟩

/-! Formatting and Euler-conversion lemmas for the motion-block claim. -/

/-- Zero formats as six zero digits. -/
theorem fmt6_zero : fmtFixed 6 0 = "0.000000" := by
  have h : round ((0:ℝ) * 10 ^ 6) = 0 := by simp
  rw [fmtFixed, h]
  rfl

/-- `1/30` formats to `0.033333` at six digits. -/
theorem fmt6_one_thirtieth : fmtFixed 6 ((1:ℝ) / 30) = "0.033333" := by
  have h : round ((1:ℝ) / 30 * 10 ^ 6) = 33333 := by
    rw [round_eq]
    rw [show ((1:ℝ) / 30 * 10 ^ 6 + 1 / 2) = 200003 / 6 by norm_num]
    rw [Int.floor_eq_iff]
    norm_num
  rw [fmtFixed, h]
  rfl

/-- The identity quaternion converts to zero Euler angles. -/
theorem quaternion_to_euler_identity : quaternion_to_euler ⟨1, 0, 0, 0⟩ = (0, 0, 0) := by
  have hn : Real.sqrt (quatNormSq ⟨1, 0, 0, 0⟩) = 1 := by
    simp [quatNormSq]
  rw [quaternion_to_euler, hn]
  have hc : clip1 0 = 0 := by
    simp [clip1]
  have ha : atan2 0 1 = 0 := by
    rw [atan2, if_pos (by norm_num : (0:ℝ) < 1)]
    simp
  norm_num
  rw [hc, ha]
  simp

/-- Zero radians is zero degrees. -/
theorem degrees_zero : degrees 0 = 0 := by
  simp [degrees]

/-- The identity rotation contributes three zero channels. -/
theorem euler_zxy_degs_identity : euler_zxy_degs ⟨1, 0, 0, 0⟩ = [0, 0, 0] := by
  simp [euler_zxy_degs, quaternion_to_euler_identity, degrees_zero]

/-- Joining six zero fields followed by further fields yields the six-zero
prefix followed by a space and the rest. -/
theorem joinSep_six_zeros (r : String) (rs : List String) :
    joinSep " " ("0.000000" :: "0.000000" :: "0.000000" :: "0.000000" ::
        "0.000000" :: "0.000000" :: r :: rs) =
      "0.000000 0.000000 0.000000 0.000000 0.000000 0.000000 " ++
        joinSep " " (r :: rs) := by
  simp only [joinSep]
  apply String.ext
  simp [String.data_append]

/-- Helper: a hip-centered frame's data line begins with six `0.000000`
fields — the scaled hip-midpoint root position `(0,0,0)` and the identity
root rotation's Euler channels. -/
theorem frame_line_hip_prefix (f : RecordingFrame) (hf : HipCentered f) :
    ∃ rest, frame_line f =
      "0.000000 0.000000 0.000000 0.000000 0.000000 0.000000 " ++ rest := by
  obtain ⟨h33, h23x, h23y, h23z, h24x, h24y, h24z⟩ := hf
  have hlook : (retarget_to_blender (used_landmarks f)).lookup "Hips" =
      some ⟨vdiv (vadd (getLm (used_landmarks f) 23) (getLm (used_landmarks f) 24)) 2,
        ⟨1, 0, 0, 0⟩⟩ := by
    rw [retarget_to_blender, if_neg (by omega)]
    rfl
  have hx :
      (vdiv (vadd (getLm (used_landmarks f) 23) (getLm (used_landmarks f) 24)) 2).x
        = 0 := by
    simp only [vdiv, vadd, getLm]
    rw [h23x, h24x]
    norm_num
  have hy :
      (vdiv (vadd (getLm (used_landmarks f) 23) (getLm (used_landmarks f) 24)) 2).y
        = 0 := by
    simp only [vdiv, vadd, getLm]
    rw [h23y, h24y]
    norm_num
  have hz :
      (vdiv (vadd (getLm (used_landmarks f) 23) (getLm (used_landmarks f) 24)) 2).z
        = 0 := by
    simp only [vdiv, vadd, getLm]
    rw [h23z, h24z]
    norm_num
  have hroot : (match (retarget_to_blender (used_landmarks f)).lookup "Hips" with
      | some hips =>
          [hips.position.x * SCALE_FACTOR, hips.position.y * SCALE_FACTOR,
            hips.position.z * SCALE_FACTOR] ++ euler_zxy_degs hips.rotation
      | none => ([0, 0, 0, 0, 0, 0] : List ℝ)) = ([0, 0, 0, 0, 0, 0] : List ℝ) := by
    rw [hlook]
    show [(vdiv (vadd (getLm (used_landmarks f) 23) (getLm (used_landmarks f) 24))
        2).x * SCALE_FACTOR, _ * SCALE_FACTOR, _ * SCALE_FACTOR] ++
        euler_zxy_degs ⟨1, 0, 0, 0⟩ = _
    rw [hx, hy, hz, euler_zxy_degs_identity]
    norm_num
  have hfv : frame_values f = ([0, 0, 0, 0, 0, 0] : List ℝ) ++
      (bone_order.drop 1).flatMap (fun name =>
        match (retarget_to_blender (used_landmarks f)).lookup name with
        | some b => euler_zxy_degs b.rotation
        | none => ([0, 0, 0] : List ℝ)) := by
    simp only [frame_values]
    rw [hroot]
  obtain ⟨l18, hdrop⟩ : ∃ l, bone_order.drop 1 = "Spine" :: l := ⟨_, rfl⟩
  have htail : ∃ r rs, ((bone_order.drop 1).flatMap (fun name =>
      match (retarget_to_blender (used_landmarks f)).lookup name with
      | some b => euler_zxy_degs b.rotation
      | none => ([0, 0, 0] : List ℝ))).map (fmtFixed 6) = r :: rs := by
    rw [hdrop, List.flatMap_cons]
    cases hsp : (retarget_to_blender (used_landmarks f)).lookup "Spine" with
    | none => exact ⟨_, _, rfl⟩
    | some b => exact ⟨_, _, rfl⟩
  obtain ⟨r, rs, hr⟩ := htail
  refine ⟨joinSep " " (r :: rs), ?_⟩
  rw [frame_line, hfv, List.map_append, hr]
  rw [show ([0, 0, 0, 0, 0, 0] : List ℝ).map (fmtFixed 6) =
    ["0.000000", "0.000000", "0.000000", "0.000000", "0.000000", "0.000000"] by
      simp [fmt6_zero]]
  exact joinSep_six_zeros r rs

/-- C4: for every 2-frame recording at 30 fps whose frames are well-formed
and place `left_hip` at `(-0.1, 0, 0)` and `right_hip` at `(0.1, 0, 0)`, the
generated MOTION block contains the header line `Frame Time: 0.033333`, its
data lines are exactly the two frame lines, and each data line begins with
the root position channels — the scaled hip midpoint, `0 0 0` — followed by
the root rotation channels `0 0 0` (six `0.000000` fields). -/
theorem two_frame_motion_block_scenario (r : Recording) (f1 f2 : RecordingFrame)
    (hframes : r.frames = [f1, f2]) (hfps : r.metadata.fps = 30)
    (h1 : HipCentered f1) (h2 : HipCentered f2) :
    "Frame Time: 0.033333" ∈ motion_lines r ∧
    (motion_lines r).drop 3 = [frame_line f1, frame_line f2] ∧
    (∀ f ∈ [f1, f2], ∃ rest, frame_line f =
      "0.000000 0.000000 0.000000 0.000000 0.000000 0.000000 " ++ rest) := by
  have hft : "Frame Time: " ++ fmtFixed 6 (1 / r.metadata.fps) =
      "Frame Time: 0.033333" := by
    rw [hfps, fmt6_one_thirtieth]
    rfl
  refine ⟨?_, ?_, ?_⟩
  · simp only [motion_lines, hframes, List.map_cons, List.map_nil, List.cons_append,
      List.nil_append, List.mem_cons, List.not_mem_nil, or_false]
    exact Or.inr (Or.inr (Or.inl hft.symm))
  · simp only [motion_lines, hframes]
    rfl
  · intro f hf
    simp only [List.mem_cons, List.not_mem_nil, or_false] at hf
    rcases hf with rfl | rfl
    · exact frame_line_hip_prefix f h1
    · exact frame_line_hip_prefix f h2

/-- Witness for C4 at the concrete recording. -/
theorem two_frame_motion_block_scenario_witness :
    (c4Rec.frames = [c4Frame, c4Frame] ∧ c4Rec.metadata.fps = 30 ∧
      HipCentered c4Frame) ∧
    ("Frame Time: 0.033333" ∈ motion_lines c4Rec ∧
      (motion_lines c4Rec).drop 3 = [frame_line c4Frame, frame_line c4Frame] ∧
      (∀ f ∈ [c4Frame, c4Frame], ∃ rest, frame_line f =
        "0.000000 0.000000 0.000000 0.000000 0.000000 0.000000 " ++ rest)) := by
  have hhc : HipCentered c4Frame :=
    ⟨by decide, rfl, rfl, rfl, rfl, rfl, rfl⟩
  exact ⟨⟨rfl, rfl, hhc⟩,
    two_frame_motion_block_scenario c4Rec c4Frame c4Frame rfl rfl hhc hhc⟩

/-- Witness for C5: the empty list yields the empty mapping, and a concrete
33-landmark list yields the 19 named bones. -/
theorem retarget_landmark_count_contract_witness :
    retarget_to_blender [] = [] ∧
    ((retarget_to_blender (List.replicate 33 dfltLm)).map Prod.fst = bone_order ∧
      bone_order.length = 19) :=
  ⟨(retarget_landmark_count_contract []).1 (by decide),
   (retarget_landmark_count_contract (List.replicate 33 dfltLm)).2 (by decide)⟩

end Mocap
